import Mathlib

/-!
Verification of the bets-app gateway (main.go of claudioed/bets-app).

The program is an HTTP aggregation gateway: POST /api/bets fans out to three
upstream services (match, player, championship), collects each result, and
either reports a 503 with per-dependency statuses or assembles a 201 Bet
response.  GET /health is a constant responder.

Shallow embedding notes:
  - An inbound request is modelled by the result of Header.Get (a function
    from header name to value, with the empty string for an absent header,
    exactly as in Go) together with the result of decoding its JSON body
    into the Bet submission shape (the decoded fields are never used by the
    handler, so the decode result is Except String Unit carrying only the
    decode error message).
  - Each outbound call is modelled by an oracle describing what the network
    produced for it: a transport failure, or a response with a status code,
    a status text, and a body-processing outcome.  The call-site functions
    below translate that oracle exactly as the corresponding Go function
    translates client.Do plus status check plus body decode.
  - Outbound header maps are functions from header name to Option String
    (none means the header was never set), with Header.Set as pointwise
    update; Go canonicalises header names identically in Get and Set, so
    plain string keys are a faithful abstraction.
  - JSON serialization with omitempty (struct tags of Bet and HealthData)
    is modelled as the list of emitted field/value pairs in struct order,
    where a field whose value is the empty string is dropped.
-/

namespace BetsApp

/-- The fixed header allowlist, in source order (variable incomingHeaders). -/
def incomingHeaders : List String :=
  ["Authorization",
   "x-version",
   "x-request-id",
   "x-b3-traceid",
   "x-b3-spanid",
   "x-b3-parentspanid",
   "x-b3-sampled",
   "x-b3-flags",
   "x-ot-span-context"]

/-- One iteration of the forwardHeaders loop body: read the inbound value of
header th (Header.Get, empty string when absent) and, when non-empty, set it
on the outbound header map (Header.Set). -/
def forwardStep (inbound : String → String) (r : String → Option String) (th : String) :
    String → Option String :=
  let h := inbound th
  if h ≠ "" then Function.update r th (some h) else r

/-- Function forwardHeaders: copy each allowlisted inbound header with a
non-empty value onto the outbound request headers. -/
def forwardHeaders (inbound : String → String) (outbound : String → Option String) :
    String → Option String :=
  incomingHeaders.foldl (forwardStep inbound) outbound

/-- Headers sent by the match call site: it builds a fresh GET request (no
headers set) and applies forwardHeaders to it. -/
def matchSentHeaders (inbound : String → String) : String → Option String :=
  forwardHeaders inbound (fun _ => none)

/-- Headers sent by the player call site (same construction as the others). -/
def playerSentHeaders (inbound : String → String) : String → Option String :=
  forwardHeaders inbound (fun _ => none)

/-- Headers sent by the championship call site. -/
def championshipSentHeaders (inbound : String → String) : String → Option String :=
  forwardHeaders inbound (fun _ => none)

/-- Struct Match: the typed payload decoded from the match service. -/
structure Match where
  homeTeam : String
  awayTeam : String
  championship : String
deriving DecidableEq

/-- Method (m Match) String(): Sprintf of "%s %dx%d %s" with the hardcoded
literal scores 2 and 3 (the %d arguments are the constants 2 and 3). -/
def Match.String (m : Match) : String :=
  m.homeTeam ++ " " ++ toString (2 : Nat) ++ "x" ++ toString (3 : Nat) ++ " " ++ m.awayTeam

/-- Struct Bet (the field named match in Go is spelled matchF here because
match is a reserved word in Lean). -/
structure Bet where
  homeTeamScore : String
  awayTeamScore : String
  championship : String
  matchF : String
  email : String
deriving DecidableEq

/-- JSON serialization of Bet under the omitempty struct tags: the emitted
field/value pairs in struct order, dropping fields whose value is empty. -/
def Bet.jsonFields (b : Bet) : List (String × String) :=
  (if b.homeTeamScore = "" then [] else [("homeTeamScore", b.homeTeamScore)]) ++
  (if b.awayTeamScore = "" then [] else [("awayTeamScore", b.awayTeamScore)]) ++
  (if b.championship = "" then [] else [("championship", b.championship)]) ++
  (if b.matchF = "" then [] else [("match", b.matchF)]) ++
  (if b.email = "" then [] else [("email", b.email)])

/-- Struct Error: the aggregate error payload.  Its single field is a Go map
from dependency name to status; it is modelled as the key/value pairs the
handler puts into the map literal. -/
structure Error where
  errors : List (String × Nat)
deriving DecidableEq

/-- Struct HealthData. -/
structure HealthData where
  status : String
deriving DecidableEq

/-- JSON serialization of HealthData under its omitempty tag. -/
def HealthData.jsonFields (h : HealthData) : List (String × String) :=
  if h.status = "" then [] else [("status", h.status)]

/-- The Go error values the upstream call sites can produce. -/
inductive GoError where
  | transport
  | statusErr (statusText : String)
  | jsonDecode
  | bodyRead
deriving DecidableEq

/-- Function is2xx: status >= 200 && status < 300. -/
def is2xx (status : Nat) : Bool :=
  decide (200 ≤ status ∧ status < 300)

/-- Body-processing outcome for the match call (json.Decoder.Decode into a
Match value): either a decode failure or the decoded struct. -/
inductive MatchBody where
  | decodeError
  | decoded (m : Match)
deriving DecidableEq

/-- The network oracle for the match call: client.Do either fails with a
transport error or yields a response with status code, status text and body. -/
inductive MatchOutcome where
  | transportError
  | resp (status : Nat) (statusText : String) (body : MatchBody)
deriving DecidableEq

/-- Body-processing outcome for the player and championship calls, which
first read the whole body (ioutil.ReadAll) and then unmarshal it into a
map from string to string. -/
inductive MapBody where
  | readError
  | decodeError
  | decoded (kvs : List (String × String))
deriving DecidableEq

/-- The network oracle for the player and championship calls. -/
inductive MapOutcome where
  | transportError
  | resp (status : Nat) (statusText : String) (body : MapBody)
deriving DecidableEq

/-- Indexing a decoded Go map[string]string: the value at the key, or the
zero value (empty string) when the key is absent. -/
def goMapGet (kvs : List (String × String)) (k : String) : String :=
  ((kvs.find? (fun kv => kv.1 == k)).map (fun kv => kv.2)).getD ""

/-- Function match of main.go (spelled matchCall because match is reserved in
Lean): translate the oracle for the match service exactly as the source does.
Transport error: nil payload, status 0, the error.  Non-2xx: nil payload, the
real status, an error built from the status text.  2xx with a body that fails
to decode: nil payload, status 0, the decode error.  2xx decoded: the payload,
the status, nil error. -/
def matchCall (o : MatchOutcome) : Option Match × Nat × Option GoError :=
  match o with
  | .transportError => (none, 0, some .transport)
  | .resp status statusText body =>
    if !(is2xx status) then (none, status, some (.statusErr statusText))
    else
      match body with
      | .decodeError => (none, 0, some .jsonDecode)
      | .decoded m => (some m, status, none)

/-- Function championship of main.go: like matchCall, except that the body is
first read in full (a read failure keeps the real status), the decoded value
is a string map, and the result is the value at key title; note that both the
read-failure and the decode-failure paths return the real 2xx status, unlike
the match call site. -/
def championship (o : MapOutcome) : String × Nat × Option GoError :=
  match o with
  | .transportError => ("", 0, some .transport)
  | .resp status statusText body =>
    if !(is2xx status) then ("", status, some (.statusErr statusText))
    else
      match body with
      | .readError => ("", status, some .bodyRead)
      | .decodeError => ("", status, some .jsonDecode)
      | .decoded kvs => (goMapGet kvs "title", status, none)

/-- Function player of main.go: structurally identical to championship but
extracting the value at key email. -/
def player (o : MapOutcome) : String × Nat × Option GoError :=
  match o with
  | .transportError => ("", 0, some .transport)
  | .resp status statusText body =>
    if !(is2xx status) then ("", status, some (.statusErr statusText))
    else
      match body with
      | .readError => ("", status, some .bodyRead)
      | .decodeError => ("", status, some .jsonDecode)
      | .decoded kvs => (goMapGet kvs "email", status, none)

/-- An outcome in which the match call received a non-2xx status or hit a
transport error (the failure modes named by the aggregate-failure property). -/
def MatchOutcome.hardFail (o : MatchOutcome) : Bool :=
  match o with
  | .transportError => true
  | .resp status _ _ => !(is2xx status)

/-- An outcome in which a map-shaped call received a non-2xx status or hit a
transport error. -/
def MapOutcome.hardFail (o : MapOutcome) : Bool :=
  match o with
  | .transportError => true
  | .resp status _ _ => !(is2xx status)

/-- Function hasError: fold over the variadic error list, flipping the result
to true on any non-nil error. -/
def hasError (errs : List (Option GoError)) : Bool :=
  errs.foldl (fun r e => match e with | some _ => true | none => r) false

/-- The inbound request as the handler observes it: Header.Get, and the
result of decoding the JSON body into the Bet submission shape (the decoded
submission itself is never read by the handler, only whether decoding failed
and with which message). -/
structure InboundRequest where
  headerGet : String → String
  bodyDecode : Except String Unit

/-- The network oracles for the three upstream services during one request. -/
structure UpEnv where
  matchUp : MatchOutcome
  playerUp : MapOutcome
  champUp : MapOutcome

/-- The payload the handler attaches to its response.  noBody is an HTTPError
constructed with no message argument.  errorFuncValue records that the Go
source passes the method value err.Error, a function, as the HTTPError
message (the string argument is what calling that method would return);
messageString is an HTTPError message that actually is a string, which the
decode-failure path would produce had the source called err.Error(). -/
inductive RespBody where
  | noBody
  | errorFuncValue (msg : String)
  | messageString (msg : String)
  | errJson (e : Error)
  | betJson (b : Bet)
deriving DecidableEq

/-- An HTTP response: status code and payload. -/
structure Response where
  status : Nat
  body : RespBody
deriving DecidableEq

/-- Function CreateBet, the POST /api/bets handler.  Besides the response it
returns the list of upstream services invoked, in invocation order, so that
the statements below can speak about which calls were made. -/
def CreateBet (req : InboundRequest) (env : UpEnv) : Response × List String :=
  if req.headerGet "Content-Type" ≠ "application/json" then
    (⟨415, .noBody⟩, [])
  else
    match req.bodyDecode with
    | .error msg => (⟨500, .errorFuncValue msg⟩, [])
    | .ok _ =>
      let mr := matchCall env.matchUp
      let pr := player env.playerUp
      let cr := championship env.champUp
      if hasError [mr.2.2, pr.2.2, cr.2.2] then
        (⟨503, .errJson ⟨[("players", pr.2.1),
                          ("matches", mr.2.1),
                          ("championships", cr.2.1)]⟩⟩,
         ["matches", "players", "championships"])
      else
        (⟨201, .betJson
          { homeTeamScore := toString (2 : Nat)
            awayTeamScore := toString (3 : Nat)
            championship := cr.1
            matchF := match mr.1 with
                      | some m => m.String
                      | none => ""
                      -- none is unreachable here: hasError ruled out a nil payload
                      -- (the Go source would dereference a nil pointer otherwise)
            email := pr.1 }⟩,
         ["matches", "players", "championships"])

/-- Function Health, the GET /health handler.  The Go handler receives the
request context and, implicitly, whatever state the upstreams are in; both
are taken as parameters here precisely to state that the result depends on
neither. -/
def Health (_req : InboundRequest) (_env : UpEnv) : Nat × HealthData :=
  (200, { status := "UP" })

/-! Helper lemmas shared by the claim theorems. -/

lemma foldl_forwardStep_get (inbound : String → String) (ths : List String)
    (outb : String → Option String) (k : String) :
    ths.foldl (forwardStep inbound) outb k =
      if k ∈ ths ∧ inbound k ≠ "" then some (inbound k) else outb k := by
  induction ths generalizing outb with
  | nil => simp
  | cons th rest ih =>
    rw [List.foldl_cons, ih]
    by_cases hr : k ∈ rest ∧ inbound k ≠ ""
    · rw [if_pos hr, if_pos ⟨List.mem_cons_of_mem th hr.1, hr.2⟩]
    · rw [if_neg hr]
      by_cases hk : k = th
      · subst hk
        by_cases he : inbound k = ""
        · have : ¬ (k ∈ k :: rest ∧ inbound k ≠ "") := by
            intro hc; exact hc.2 he
          rw [if_neg this]
          simp [forwardStep, he]
        · rw [if_pos ⟨List.mem_cons_self k rest, he⟩]
          simp [forwardStep, he]
      · have : ¬ (k ∈ th :: rest ∧ inbound k ≠ "") := by
          intro hc
          rcases List.mem_cons.mp hc.1 with h1 | h2
          · exact hk h1
          · exact hr ⟨h2, hc.2⟩
        rw [if_neg this]
        by_cases he : inbound th = ""
        · simp [forwardStep, he]
        · simp [forwardStep, he, Function.update_noteq hk]

lemma hasError_three (e1 e2 e3 : Option GoError) :
    hasError [e1, e2, e3] = (e1.isSome || e2.isSome || e3.isSome) := by
  cases e1 <;> cases e2 <;> cases e3 <;> rfl

lemma matchCall_err_of_hardFail (o : MatchOutcome) (h : o.hardFail = true) :
    ((matchCall o).2.2).isSome = true := by
  cases o with
  | transportError => rfl
  | resp st tx b =>
    have h2 : is2xx st = false := by
      simpa [MatchOutcome.hardFail] using h
    cases b <;> simp [matchCall, h2]

lemma player_err_of_hardFail (o : MapOutcome) (h : o.hardFail = true) :
    ((player o).2.2).isSome = true := by
  cases o with
  | transportError => rfl
  | resp st tx b =>
    have h2 : is2xx st = false := by
      simpa [MapOutcome.hardFail] using h
    cases b <;> simp [player, h2]

lemma championship_err_of_hardFail (o : MapOutcome) (h : o.hardFail = true) :
    ((championship o).2.2).isSome = true := by
  cases o with
  | transportError => rfl
  | resp st tx b =>
    have h2 : is2xx st = false := by
      simpa [MapOutcome.hardFail] using h
    cases b <;> simp [championship, h2]

lemma matchString_eq (m : Match) :
    m.String = m.homeTeam ++ " 2x3 " ++ m.awayTeam := by
  show m.homeTeam ++ " " ++ toString (2 : Nat) ++ "x" ++ toString (3 : Nat) ++ " " ++ m.awayTeam
      = m.homeTeam ++ " 2x3 " ++ m.awayTeam
  calc m.homeTeam ++ " " ++ toString (2 : Nat) ++ "x" ++ toString (3 : Nat) ++ " " ++ m.awayTeam
      = m.homeTeam ++ (" " ++ toString (2 : Nat) ++ "x" ++ toString (3 : Nat) ++ " ")
          ++ m.awayTeam := by
        simp only [String.append_assoc]
    _ = m.homeTeam ++ " 2x3 " ++ m.awayTeam := by
        rw [show (" " ++ toString (2 : Nat) ++ "x" ++ toString (3 : Nat) ++ " ") = " 2x3 "
          from by decide]

lemma itoa_two : toString (2 : Nat) = "2" := by decide

lemma itoa_three : toString (3 : Nat) = "3" := by decide

lemma createBet_all_ok (req : InboundRequest) (env : UpEnv)
    (m : Match) (pkvs ckvs : List (String × String))
    (ms ps cs : Nat) (mtx ptx ctx : String)
    (hct : req.headerGet "Content-Type" = "application/json")
    (hbody : req.bodyDecode = .ok ())
    (hm : env.matchUp = .resp ms mtx (.decoded m)) (hm2 : is2xx ms = true)
    (hp : env.playerUp = .resp ps ptx (.decoded pkvs)) (hp2 : is2xx ps = true)
    (hc : env.champUp = .resp cs ctx (.decoded ckvs)) (hc2 : is2xx cs = true) :
    CreateBet req env =
      (⟨201, .betJson
        { homeTeamScore := "2"
          awayTeamScore := "3"
          championship := goMapGet ckvs "title"
          matchF := m.homeTeam ++ " 2x3 " ++ m.awayTeam
          email := goMapGet pkvs "email" }⟩,
       ["matches", "players", "championships"]) := by
  unfold CreateBet
  rw [hct, hbody, hm, hp, hc]
  simp [matchCall, player, championship, hm2, hp2, hc2, hasError,
    matchString_eq, itoa_two, itoa_three]

/-! Claim theorems. -/

/-- Claim C1: for every POST /api/bets request with a decodable JSON body, if
any one of the three upstream dependency calls returns a non-2xx status or a
transport error, the handler returns HTTP 503 with an errors map containing
exactly the three keys players, matches and championships, each mapped to the
status that dependency call returned, which is 0 when the call itself failed
before receiving a status. -/
theorem aggregate_failure_503 (req : InboundRequest) (env : UpEnv)
    (hct : req.headerGet "Content-Type" = "application/json")
    (hbody : req.bodyDecode = .ok ())
    (hfail : env.matchUp.hardFail = true ∨ env.playerUp.hardFail = true ∨
      env.champUp.hardFail = true) :
    CreateBet req env =
      (⟨503, .errJson ⟨[("players", (player env.playerUp).2.1),
                        ("matches", (matchCall env.matchUp).2.1),
                        ("championships", (championship env.champUp).2.1)]⟩⟩,
       ["matches", "players", "championships"]) ∧
    (env.matchUp = .transportError → (matchCall env.matchUp).2.1 = 0) ∧
    (env.playerUp = .transportError → (player env.playerUp).2.1 = 0) ∧
    (env.champUp = .transportError → (championship env.champUp).2.1 = 0) := by
  have herr : hasError [(matchCall env.matchUp).2.2, (player env.playerUp).2.2,
      (championship env.champUp).2.2] = true := by
    rw [hasError_three]
    rcases hfail with h | h | h
    · simp [matchCall_err_of_hardFail _ h]
    · simp [player_err_of_hardFail _ h]
    · simp [championship_err_of_hardFail _ h]
  refine ⟨?_, ?_, ?_, ?_⟩
  · unfold CreateBet
    rw [hct, hbody]
    simp [herr]
  · intro h; rw [h]; rfl
  · intro h; rw [h]; rfl
  · intro h; rw [h]; rfl

/-- Witness for C1 at the worked example of the spec: match answers 500, the
other two answer 200 with valid bodies; the response is 503 with statuses
players 200, matches 500, championships 200. -/
theorem aggregate_failure_503_witness :
    CreateBet ⟨fun h => if h = "Content-Type" then "application/json" else "", .ok ()⟩
        ⟨.resp 500 "500 Internal Server Error" .decodeError,
         .resp 200 "200 OK" (.decoded [("email", "x@y.com")]),
         .resp 200 "200 OK" (.decoded [("title", "League")])⟩ =
      (⟨503, .errJson ⟨[("players", 200), ("matches", 500), ("championships", 200)]⟩⟩,
       ["matches", "players", "championships"]) := by
  have h := aggregate_failure_503
    ⟨fun h => if h = "Content-Type" then "application/json" else "", .ok ()⟩
    ⟨.resp 500 "500 Internal Server Error" .decodeError,
     .resp 200 "200 OK" (.decoded [("email", "x@y.com")]),
     .resp 200 "200 OK" (.decoded [("title", "League")])⟩
    (by decide) rfl (Or.inl (by decide))
  rw [h.1]
  decide

/-- Claim C2: when all three dependency calls return 2xx with valid bodies,
the handler returns HTTP 201 with a Bet whose match field is the string
homeTeam 2x3 awayTeam, with the literal scores 2 and 3 independent of any
data in the upstream Match payload, whose homeTeamScore is 2 and
awayTeamScore is 3, whose championship field is the championship title
string and whose email field is the player email string. -/
theorem created_bet_fields (req : InboundRequest) (env : UpEnv)
    (m : Match) (pkvs ckvs : List (String × String))
    (ms ps cs : Nat) (mtx ptx ctx : String)
    (hct : req.headerGet "Content-Type" = "application/json")
    (hbody : req.bodyDecode = .ok ())
    (hm : env.matchUp = .resp ms mtx (.decoded m)) (hm2 : is2xx ms = true)
    (hp : env.playerUp = .resp ps ptx (.decoded pkvs)) (hp2 : is2xx ps = true)
    (hc : env.champUp = .resp cs ctx (.decoded ckvs)) (hc2 : is2xx cs = true) :
    CreateBet req env =
      (⟨201, .betJson
        { homeTeamScore := "2"
          awayTeamScore := "3"
          championship := goMapGet ckvs "title"
          matchF := m.homeTeam ++ " 2x3 " ++ m.awayTeam
          email := goMapGet pkvs "email" }⟩,
       ["matches", "players", "championships"]) :=
  createBet_all_ok req env m pkvs ckvs ms ps cs mtx ptx ctx hct hbody hm hm2 hp hp2 hc hc2

/-- Witness for C2 at the worked example of the spec: home team A, away team
B, player email x@y.com, championship title League. -/
theorem created_bet_fields_witness :
    CreateBet ⟨fun h => if h = "Content-Type" then "application/json" else "", .ok ()⟩
        ⟨.resp 200 "200 OK" (.decoded ⟨"A", "B", ""⟩),
         .resp 200 "200 OK" (.decoded [("email", "x@y.com")]),
         .resp 200 "200 OK" (.decoded [("title", "League")])⟩ =
      (⟨201, .betJson
        { homeTeamScore := "2", awayTeamScore := "3", championship := "League",
          matchF := "A 2x3 B", email := "x@y.com" }⟩,
       ["matches", "players", "championships"]) := by
  have h := created_bet_fields
    ⟨fun h => if h = "Content-Type" then "application/json" else "", .ok ()⟩
    ⟨.resp 200 "200 OK" (.decoded ⟨"A", "B", ""⟩),
     .resp 200 "200 OK" (.decoded [("email", "x@y.com")]),
     .resp 200 "200 OK" (.decoded [("title", "League")])⟩
    ⟨"A", "B", ""⟩ [("email", "x@y.com")] [("title", "League")]
    200 200 200 "200 OK" "200 OK" "200 OK"
    (by decide) rfl rfl (by decide) rfl (by decide) rfl (by decide)
  rw [h]
  decide

/-- Claim C3, counterexample: the claim says that on a 2xx response with an
undecodable body, two of the three call sites return status 0 and the third
returns the real status.  Evaluating all three call sites on the same such
response shows that exactly one of them, the match call, returns 0, while
both the player and the championship call return the real status 200. -/
theorem decode_status_claim_refuted :
    (matchCall (.resp 200 "200 OK" .decodeError)).2.1 = 0 ∧
    (player (.resp 200 "200 OK" .decodeError)).2.1 = 200 ∧
    (championship (.resp 200 "200 OK" .decodeError)).2.1 = 200 :=
  ⟨by decide, by decide, by decide⟩

/-- Claim C3 as amended: on a 2xx response whose JSON body fails to decode,
the match call site returns status 0 with a non-nil decode error and nil
payload, while the player and championship call sites return the real 2xx
status with a non-nil decode error and an empty payload. -/
theorem decode_error_statuses (st : Nat) (tx : String) (h : is2xx st = true) :
    matchCall (.resp st tx .decodeError) = (none, 0, some .jsonDecode) ∧
    player (.resp st tx .decodeError) = ("", st, some .jsonDecode) ∧
    championship (.resp st tx .decodeError) = ("", st, some .jsonDecode) := by
  refine ⟨?_, ?_, ?_⟩ <;> simp [matchCall, player, championship, h]

/-- Witness for the amended C3 at status 200. -/
theorem decode_error_statuses_witness :
    matchCall (.resp 200 "200 OK" .decodeError) = (none, 0, some .jsonDecode) ∧
    player (.resp 200 "200 OK" .decodeError) = ("", 200, some .jsonDecode) ∧
    championship (.resp 200 "200 OK" .decodeError) = ("", 200, some .jsonDecode) :=
  decode_error_statuses 200 "200 OK" (by decide)

/-- Claim C4: for every inbound request and every header name, each of the
three outbound upstream requests carries that header exactly when the name is
in the fixed allowlist and the inbound value is non-empty, and then with the
inbound value; headers with empty inbound values and headers outside the
allowlist are never forwarded. -/
theorem allowlist_header_forwarding (inbound : String → String) (name : String) :
    (matchSentHeaders inbound name =
      if name ∈ incomingHeaders ∧ inbound name ≠ "" then some (inbound name) else none) ∧
    (playerSentHeaders inbound name =
      if name ∈ incomingHeaders ∧ inbound name ≠ "" then some (inbound name) else none) ∧
    (championshipSentHeaders inbound name =
      if name ∈ incomingHeaders ∧ inbound name ≠ "" then some (inbound name) else none) :=
  ⟨foldl_forwardStep_get inbound incomingHeaders (fun _ => none) name,
   foldl_forwardStep_get inbound incomingHeaders (fun _ => none) name,
   foldl_forwardStep_get inbound incomingHeaders (fun _ => none) name⟩

/-- Claim C5: any POST /api/bets request whose Content-Type header is not
exactly application/json gets a 415 response with no payload, no upstream
call is made (the call list is empty), and the result does not depend on the
request body, whose decode result is arbitrary here. -/
theorem unsupported_media_type_415 (req : InboundRequest) (env : UpEnv)
    (h : req.headerGet "Content-Type" ≠ "application/json") :
    CreateBet req env = (⟨415, .noBody⟩, []) := by
  unfold CreateBet
  rw [if_pos h]

/-- Witness for C5: a request with no Content-Type header at all (Header.Get
yields the empty string) and an undecodable body. -/
theorem unsupported_media_type_415_witness :
    CreateBet ⟨fun _ => "", .error "unexpected EOF"⟩
      ⟨.transportError, .transportError, .transportError⟩ = (⟨415, .noBody⟩, []) :=
  unsupported_media_type_415 ⟨fun _ => "", .error "unexpected EOF"⟩
    ⟨.transportError, .transportError, .transportError⟩ (by decide)

/-- Claim C6, code bug: on a body decode failure the handler does answer 500
without calling any upstream, but the payload it attaches is the method value
err.Error, a function, rather than the decode error message string err.Error()
that the specification describes; the two are distinct payloads. -/
theorem decode_failure_payload_not_message :
    CreateBet ⟨fun h => if h = "Content-Type" then "application/json" else "",
        .error "unexpected EOF"⟩
      ⟨.transportError, .transportError, .transportError⟩ =
      (⟨500, .errorFuncValue "unexpected EOF"⟩, []) ∧
    RespBody.errorFuncValue "unexpected EOF" ≠ RespBody.messageString "unexpected EOF" :=
  ⟨by decide, by decide⟩

/-- Claim C7: every upstream call that receives a response with a status
below 200 or at least 300 returns that status, a non-nil error built from the
status text of the response, and a nil or empty payload, whatever the body
would have contained. -/
theorem non2xx_upstream_error (st : Nat) (tx : String) (mb : MatchBody) (pb cb : MapBody)
    (h : st < 200 ∨ 300 ≤ st) :
    matchCall (.resp st tx mb) = (none, st, some (.statusErr tx)) ∧
    player (.resp st tx pb) = ("", st, some (.statusErr tx)) ∧
    championship (.resp st tx cb) = ("", st, some (.statusErr tx)) := by
  have h2 : is2xx st = false := by
    simp only [is2xx, decide_eq_false_iff_not]
    omega
  refine ⟨?_, ?_, ?_⟩ <;> simp [matchCall, player, championship, h2]

/-- Witness for C7 at a 404 response. -/
theorem non2xx_upstream_error_witness :
    matchCall (.resp 404 "404 Not Found" .decodeError) =
      (none, 404, some (.statusErr "404 Not Found")) ∧
    player (.resp 404 "404 Not Found" .readError) =
      ("", 404, some (.statusErr "404 Not Found")) ∧
    championship (.resp 404 "404 Not Found" (.decoded [("title", "League")])) =
      ("", 404, some (.statusErr "404 Not Found")) :=
  non2xx_upstream_error 404 "404 Not Found" .decodeError .readError
    (.decoded [("title", "League")]) (by decide)

/-- Claim C8: GET /health answers 200 with the single serialized field
status UP, for every inbound request and every upstream state. -/
theorem health_always_up (req : InboundRequest) (env : UpEnv) :
    Health req env = (200, { status := "UP" }) ∧
    (Health req env).2.jsonFields = [("status", "UP")] :=
  ⟨rfl, by simp [Health, HealthData.jsonFields]⟩

/-- Claim C9: the Content-Type check is an exact string comparison, so the
parameterized JSON media type application/json with a charset parameter is
rejected with 415 even though it denotes JSON. -/
theorem content_type_variant_rejected (req : InboundRequest) (env : UpEnv)
    (h : req.headerGet "Content-Type" = "application/json; charset=utf-8") :
    CreateBet req env = (⟨415, .noBody⟩, []) := by
  have hne : req.headerGet "Content-Type" ≠ "application/json" := by
    rw [h]; decide
  unfold CreateBet
  rw [if_pos hne]

/-- Witness for C9. -/
theorem content_type_variant_rejected_witness :
    CreateBet ⟨fun h => if h = "Content-Type" then "application/json; charset=utf-8" else "",
        .ok ()⟩
      ⟨.transportError, .transportError, .transportError⟩ = (⟨415, .noBody⟩, []) :=
  content_type_variant_rejected
    ⟨fun h => if h = "Content-Type" then "application/json; charset=utf-8" else "", .ok ()⟩
    ⟨.transportError, .transportError, .transportError⟩ (by decide)

lemma matchF_ne_empty (m : Match) : m.homeTeam ++ " 2x3 " ++ m.awayTeam ≠ "" := by
  intro h
  have hlen : (m.homeTeam ++ " 2x3 " ++ m.awayTeam).length = 0 := by
    rw [h]; rfl
  rw [String.length_append, String.length_append] at hlen
  have h5 : (" 2x3 " : String).length = 5 := by decide
  rw [h5] at hlen
  omega

/-- Claim C10: when the player service answers 2xx with a valid JSON object
lacking the email key, and likewise the championship service with an object
lacking the title key, the calls still succeed with the empty string and nil
error, the aggregate succeeds, and the email and championship fields are
absent from the serialized 201 Bet because empty fields carry omitempty. -/
theorem missing_keys_omitted_fields (req : InboundRequest) (env : UpEnv)
    (m : Match) (pkvs ckvs : List (String × String))
    (ms ps cs : Nat) (mtx ptx ctx : String)
    (hct : req.headerGet "Content-Type" = "application/json")
    (hbody : req.bodyDecode = .ok ())
    (hm : env.matchUp = .resp ms mtx (.decoded m)) (hm2 : is2xx ms = true)
    (hp : env.playerUp = .resp ps ptx (.decoded pkvs)) (hp2 : is2xx ps = true)
    (hc : env.champUp = .resp cs ctx (.decoded ckvs)) (hc2 : is2xx cs = true)
    (hpe : pkvs.find? (fun kv => kv.1 == "email") = none)
    (hcp : ckvs.find? (fun kv => kv.1 == "title") = none) :
    player env.playerUp = ("", ps, none) ∧
    championship env.champUp = ("", cs, none) ∧
    CreateBet req env =
      (⟨201, .betJson
        { homeTeamScore := "2", awayTeamScore := "3", championship := "",
          matchF := m.homeTeam ++ " 2x3 " ++ m.awayTeam, email := "" }⟩,
       ["matches", "players", "championships"]) ∧
    Bet.jsonFields
        { homeTeamScore := "2", awayTeamScore := "3", championship := "",
          matchF := m.homeTeam ++ " 2x3 " ++ m.awayTeam, email := "" } =
      [("homeTeamScore", "2"), ("awayTeamScore", "3"),
       ("match", m.homeTeam ++ " 2x3 " ++ m.awayTeam)] := by
  have hval : goMapGet pkvs "email" = "" := by
    simp [goMapGet, hpe]
  have hval2 : goMapGet ckvs "title" = "" := by
    simp [goMapGet, hcp]
  refine ⟨?_, ?_, ?_, ?_⟩
  · rw [hp]
    simp [player, hp2, hval]
  · rw [hc]
    simp [championship, hc2, hval2]
  · have h := createBet_all_ok req env m pkvs ckvs ms ps cs mtx ptx ctx
      hct hbody hm hm2 hp hp2 hc hc2
    rw [h, hval, hval2]
  · have h1 : ¬ (("2" : String) = "") := by decide
    have h3 : ¬ (("3" : String) = "") := by decide
    simp [Bet.jsonFields, h1, h3, matchF_ne_empty m]

/-- Witness for C10: both upstream objects are valid but carry unrelated
keys only. -/
theorem missing_keys_omitted_fields_witness :
    player (MapOutcome.resp 200 "200 OK" (.decoded [("name", "zed")])) = ("", 200, none) ∧
    championship (MapOutcome.resp 200 "200 OK" (.decoded [("year", "2020")])) =
      ("", 200, none) ∧
    CreateBet ⟨fun h => if h = "Content-Type" then "application/json" else "", .ok ()⟩
        ⟨.resp 200 "200 OK" (.decoded ⟨"A", "B", ""⟩),
         .resp 200 "200 OK" (.decoded [("name", "zed")]),
         .resp 200 "200 OK" (.decoded [("year", "2020")])⟩ =
      (⟨201, .betJson
        { homeTeamScore := "2", awayTeamScore := "3", championship := "",
          matchF := "A 2x3 B", email := "" }⟩,
       ["matches", "players", "championships"]) ∧
    Bet.jsonFields
        { homeTeamScore := "2", awayTeamScore := "3", championship := "",
          matchF := "A 2x3 B", email := "" } =
      [("homeTeamScore", "2"), ("awayTeamScore", "3"), ("match", "A 2x3 B")] := by
  have h := missing_keys_omitted_fields
    ⟨fun h => if h = "Content-Type" then "application/json" else "", .ok ()⟩
    ⟨.resp 200 "200 OK" (.decoded ⟨"A", "B", ""⟩),
     .resp 200 "200 OK" (.decoded [("name", "zed")]),
     .resp 200 "200 OK" (.decoded [("year", "2020")])⟩
    ⟨"A", "B", ""⟩ [("name", "zed")] [("year", "2020")]
    200 200 200 "200 OK" "200 OK" "200 OK"
    (by decide) rfl rfl (by decide) rfl (by decide) rfl (by decide)
    (by decide) (by decide)
  refine ⟨h.1, h.2.1, ?_, ?_⟩
  · rw [h.2.2.1]
    decide
  · have h4 := h.2.2.2
    rw [show (("A" : String) ++ " 2x3 " ++ "B") = "A 2x3 B" from by decide] at h4
    exact h4

end BetsApp
